import Mathlib

/-!
Shallow embedding of the Adform DSP reports extractor
(`src/adform/api_service.py` and `src/component.py`).

HTTP traffic is modelled as explicit traces: the poller consumes a list of
status responses tagged with the wall-clock elapsed time observed right after
each read, the transport consumes a list of raw responses, and the paginated
fetcher consumes the list of report pages the mocked server would return for
successive submissions.
-/

namespace Adform

/-- `DEFAULT_PAGING_LIMIT` from `api_service.py`. -/
def DEFAULT_PAGING_LIMIT : ℕ := 100000

/-- `MAX_RETRIES` from `api_service.py`. -/
def MAX_RETRIES : ℕ := 10

/-- `DEFAULT_WAIT_INTERVAL` (seconds slept between polls) from `api_service.py`. -/
def DEFAULT_WAIT_INTERVAL : ℕ := 2

/-- `status_forcelist=(429, 500, 502, 504)` passed to the transport in
`AdformClient.__init__`. -/
def statusForcelist : List ℕ := [429, 500, 502, 504]

/-- `backoff_factor=0.3` passed to the transport in `AdformClient.__init__`,
as an exact rational. -/
def backoffFactor : ℚ := 3 / 10

/-- Modelled from the spec: the urllib3 retry machinery configured by
`AdformClient.__init__` (the `keboola.http_client` dependency is not part of
this repository) sleeps `backoff_factor * 2^n` before successive retries —
"retries with exponential backoff ... base factor ~0.3s". -/
def backoffDelay (n : ℕ) : ℚ := backoffFactor * 2 ^ n

/-- One JSON body returned by the operation-status endpoint; the poller only
reads its `status` field, `none` meaning the field is absent. -/
structure PollResponse where
  statusField : Option String
deriving DecidableEq, Repr

/-- One iteration of the polling loop: the response `self.get` produced and
the value of `time.time() - start` observed at the line-90 timeout check. -/
structure PollStep where
  res : PollResponse
  elapsed : ℕ
deriving DecidableEq, Repr

/-- Is the status field present and terminal
(`res['status'] in ['succeeded', 'failed']`)? -/
def isTerminal (r : PollResponse) : Bool :=
  match r.statusField with
  | some s => s == "succeeded" || s == "failed"
  | none => false

/-- The `while continue_polling` loop of `_wait_until_operation_finished`,
lines 81–91.  Carries the sticky `invalid_status` flag; returns the response
held in `res` at loop exit together with the flag, or `none` when the trace
ends before the loop would exit. -/
def pollLoop (invalid : Bool) : List PollStep → Option (PollResponse × Bool)
  | [] => none
  | step :: rest =>
    let invalid' := invalid || step.res.statusField.isNone
    if isTerminal step.res || (step.res.statusField.isNone && decide (60 < step.elapsed)) then
      some (step.res, invalid')
    else
      pollLoop invalid' rest

/-- Outcome of `_wait_until_operation_finished` after the loop: lines 93–99. -/
inductive PollOutcome where
  /-- `AdformClientError("Result could not be parsed. ...")` raised on line 94. -/
  | malformed (res : PollResponse)
  /-- `AdformClientError(f'Report job ID ... failed to process ...')` raised on line 97. -/
  | reportFailed
  /-- Normal return of `res` on line 99. -/
  | ok (res : PollResponse)
deriving DecidableEq, Repr

/-- `_wait_until_operation_finished` over a poll trace: run the loop with
`invalid_status = False`, then classify.  `none` when the trace is too short
for the loop to exit (the real loop would keep polling). -/
def waitUntilOperationFinished (steps : List PollStep) : Option PollOutcome :=
  match pollLoop false steps with
  | none => none
  | some (res, invalid) =>
    if invalid then some (.malformed res)
    else if res.statusField == some "failed" then some .reportFailed
    else some (.ok res)

/-- Python `d.get(k)` / `headers[k]`-style lookup on a string-keyed dict,
returning `none` when the key is absent. -/
def lookupKey (l : List (String × String)) (k : String) : Option String :=
  (l.find? (fun p => p.1 == k)).map (·.2)

/-- One raw HTTP response as `_submit_stats_report` sees it: `status_code`,
`text` and `headers`. -/
structure HttpResponse where
  status : ℕ
  text : String
  headers : List (String × String)
deriving DecidableEq, Repr

/-- Result of one transport-level request (`self.post_raw`). -/
inductive TransportResult where
  /-- A response handed back to the caller. -/
  | ok (r : HttpResponse)
  /-- `requests.exceptions.RetryError`: the retry budget was exhausted. -/
  | retryError
  /-- The modelled server trace ended before the transport got an answer. -/
  | exhaustedTrace
deriving DecidableEq, Repr

/-- Modelled from the spec: the bounded automatic retry of the
`keboola.http_client`/urllib3 transport (an external dependency, not under
`src/`), configured in `AdformClient.__init__` with `max_retries=MAX_RETRIES`
and `status_forcelist=(429, 500, 502, 504)`.  It returns the first response
whose status is not in the forcelist; each forcelisted response consumes one
retry, and a forcelisted response arriving with no retries left raises
`RetryError`. -/
def runTransport : ℕ → List HttpResponse → TransportResult
  | _, [] => .exhaustedTrace
  | 0, r :: _ =>
    if r.status ∈ statusForcelist then .retryError else .ok r
  | b + 1, r :: rest =>
    if r.status ∈ statusForcelist then runTransport b rest else .ok r

/-- The `AdformServerError` message built on lines 65–67 from a `RetryError`
rendered as `e`. -/
def adformServerErrorMsg (e : String) : String :=
  "Client is unable to fetch data from server, please check your AdForm API quota limits in case of error #429 the maximum allowed number of requests has been reached, error: " ++ e

/-- The `AdformClientError` message built on line 70. -/
def clientErrorMsg (status : ℕ) (text : String) : String :=
  "Failed to submit report. Operation failed with code " ++ toString status ++ ". Reason: " ++ text

/-- The characters after the last `/` of a character list, `none` when no
`/` occurs. -/
def afterLastSlashChars : List Char → Option (List Char)
  | [] => none
  | c :: cs =>
    match afterLastSlashChars cs with
    | some t => some t
    | none => if c = '/' then some cs else none

/-- Python `s.rsplit('/', 1)[1]`: the part of `s` after its last `/`, or
`none` when `s` contains no `/` (where Python raises `IndexError`). -/
def afterLastSlash (s : String) : Option String :=
  (afterLastSlashChars s.data).map (fun cs => String.mk cs)

/-- The request body assembled on lines 59–61: always `dimensions`, `filter`
and `metrics`; `paging` only when the argument is truthy. -/
structure SubmitBody where
  dimensions : List String
  filter : List (String × String)
  metrics : List (String × String)
  paging : Option (List (String × ℕ))
deriving DecidableEq, Repr

/-- `body = dict(dimensions=..., filter=..., metrics=...)` followed by
`if paging: body['paging'] = paging` — a `None` or empty dict is omitted. -/
def buildSubmitBody (dimensions : List String) (requestFilter : List (String × String))
    (metrics : List (String × String)) (paging : Option (List (String × ℕ))) : SubmitBody :=
  { dimensions := dimensions, filter := requestFilter, metrics := metrics,
    paging := match paging with
      | none => none
      | some p => if p.isEmpty then none else some p }

/-- How `_submit_stats_report` terminates. -/
inductive SubmitOutcome where
  /-- `AdformServerError` raised from the `except RetryError` branch. -/
  | serverError (msg : String)
  /-- `AdformClientError` raised for `status_code > 299`. -/
  | clientError (msg : String)
  /-- Unhandled Python `KeyError` from `response.headers[key]`. -/
  | keyError (key : String)
  /-- Unhandled Python `IndexError` from `rsplit('/', 1)[1]` on a slash-free header. -/
  | indexError
  /-- Normal return `(operation_id, report_location_id)`. -/
  | ok (operationId : String) (reportLocationId : String)
  /-- The modelled server trace ended before the transport answered. -/
  | exhaustedTrace
deriving DecidableEq, Repr

/-- `_submit_stats_report`, lines 54–74, over a trace `responses` of raw
answers the server would give to the POST and its automatic retries;
`e` is the rendered text of the `RetryError` when one occurs. -/
def submitStatsReport (e : String) (responses : List HttpResponse) : SubmitOutcome :=
  match runTransport MAX_RETRIES responses with
  | .exhaustedTrace => .exhaustedTrace
  | .retryError => .serverError (adformServerErrorMsg e)
  | .ok response =>
    if 299 < response.status then
      .clientError (clientErrorMsg response.status response.text)
    else
      match lookupKey response.headers "Operation-Location" with
      | none => .keyError "Operation-Location"
      | some opHeader =>
        match afterLastSlash opHeader with
        | none => .indexError
        | some operationId =>
          match lookupKey response.headers "Location" with
          | none => .keyError "Location"
          | some locHeader =>
            match afterLastSlash locHeader with
            | none => .indexError
            | some reportLocationId => .ok operationId reportLocationId

/-- The dict fetched by `_get_report_result`, reduced to the `reportData.rows`
field the pagination loop inspects (each row a list of cell strings). -/
structure ReportPage where
  rows : List (List String)
deriving DecidableEq, Repr

/-- `paging = {"offset": offset, "limit": DEFAULT_PAGING_LIMIT}` (line 126). -/
def pagingDict (offset : ℕ) : List (String × ℕ) :=
  [("offset", offset), ("limit", DEFAULT_PAGING_LIMIT)]

/-- One iteration of `get_report_data_paginated`: the offset it submitted,
the paging dict it passed to `_submit_stats_report`, and the page it fetched
and yielded. -/
structure FetchStep where
  submittedOffset : ℕ
  submittedPaging : List (String × ℕ)
  page : ReportPage
deriving DecidableEq, Repr

/-- The `while has_more` loop of `get_report_data_paginated`, lines 123–135,
against a mocked server that answers the successive submissions with `pages`.
Each iteration yields its page; a page with rows continues at
`offset + len(rows)`, a rowless page is yielded and ends the loop.  An
exhausted trace while `has_more` still holds just ends the modelled run. -/
def paginateGo (offset : ℕ) : List ReportPage → List FetchStep
  | [] => []
  | p :: rest =>
    let step : FetchStep := ⟨offset, pagingDict offset, p⟩
    if 0 < p.rows.length then
      step :: paginateGo (offset + p.rows.length) rest
    else
      [step]

/-- `get_report_data_paginated` starts at `offset = 0`. -/
def getReportDataPaginated (pages : List ReportPage) : List FetchStep :=
  paginateGo 0 pages

/-- Running prefix sums of a list of page sizes: `[0, s1, s1+s2, ...]`, one
entry per page (the offset at which that page was requested). -/
def prefixSums : List ℕ → List ℕ
  | [] => []
  | s :: rest => 0 :: (prefixSums rest).map (· + s)

/-- Python `str(x)` on an `Optional[str]`: `str(None)` is the literal
string `None`. -/
def pyStr : Option String → String
  | none => "None"
  | some s => s

/-- `login_using_client_credentials`, lines 45–52, reduced to the credential
it installs: `access_token = str(secrets.get('access_token'))` followed by
`self._auth_header = {"Authorization": f'Bearer {access_token}'}`.  No
branch of the code can raise on a missing `access_token` key. -/
def loginAuthHeaderValue (secrets : List (String × String)) : String :=
  "Bearer " ++ pyStr (lookupKey secrets "access_token")

/-- Methods defined on `AdformClient` in `src/adform/api_service.py`. -/
def adformClientMethodNames : List String :=
  ["__init__", "login_using_client_credentials", "_submit_stats_report",
   "_wait_until_operation_finished", "_get_report_result", "get_report_data_paginated"]

/-- Modelled from the spec: the attribute surface inherited from the
`keboola.http_client` `HttpClient` base class (an external collaborator, not
under `src/`), which offers only generic authenticated HTTP verb helpers —
no report-specific methods. -/
def httpClientMethodNames : List String :=
  ["get", "get_raw", "post", "post_raw", "put", "put_raw", "patch", "patch_raw",
   "delete", "delete_raw", "update_auth_header"]

/-- Python exception classes relevant to `component.py`'s control flow. -/
inductive PyExc where
  | userException
  | adformClientError
  | adformServerError
  | attributeError (missingAttr : String)
deriving DecidableEq, Repr

/-- Observable outcome of one `Component.run` execution: how many report
submissions reached the server, how many pages `store_results` wrote, and the
exception escaping `run`, if any. -/
structure RunTrace where
  submittedReports : ℕ
  storedPages : ℕ
  exc : Option PyExc
deriving DecidableEq, Repr

/-- The `try/except` on lines 75–82 of `component.py`: `AdformClientError`
and `AdformServerError` are re-raised as `UserException`; anything else
propagates unchanged. -/
def runExceptWrap : Option PyExc → Option PyExc
  | some .adformClientError => some .userException
  | some .adformServerError => some .userException
  | e => e

/-- `Component.run` at the fetch loop (line 76): evaluating
`client.get_report_data` performs a Python attribute lookup on the client
before any call is made.  When the attribute exists the loop body `loopRun`
runs; when it does not, an `AttributeError` is raised with nothing submitted
and nothing stored.  The surrounding `try/except` then classifies the
escaping exception. -/
def componentRun (loopRun : RunTrace) : RunTrace :=
  let inner : RunTrace :=
    if "get_report_data" ∈ adformClientMethodNames ++ httpClientMethodNames then
      loopRun
    else
      ⟨0, 0, some (.attributeError "get_report_data")⟩
  ⟨inner.submittedReports, inner.storedPages, runExceptWrap inner.exc⟩

/-- The `__main__` guard of `component.py`, lines 169–178: a clean run exits 0,
a `UserException` exits 1, any other exception exits 2. -/
def mainExitCode (t : RunTrace) : ℕ :=
  match t.exc with
  | none => 0
  | some .userException => 1
  | some _ => 2

/-! ### Poller lemmas -/

/-- When every poll response lacks a `status` field, the loop exits at a step
whose elapsed time exceeds 60s, with the sticky `invalid_status` flag set. -/
lemma pollLoop_all_missing (steps : List PollStep) :
    (∀ s ∈ steps, s.res.statusField = none) → (∃ s ∈ steps, 60 < s.elapsed) →
    ∀ b : Bool, ∃ r, pollLoop b steps = some (r, true) := by
  induction steps with
  | nil =>
    intro _ hex _
    rcases hex with ⟨s, hs, _⟩
    exact absurd hs (List.not_mem_nil s)
  | cons step rest ih =>
    intro hall hex b
    have hstep : step.res.statusField = none := hall step (List.mem_cons_self _ _)
    have hterm : isTerminal step.res = false := by simp [isTerminal, hstep]
    by_cases h60 : 60 < step.elapsed
    · exact ⟨step.res, by simp [pollLoop, hterm, hstep, h60]⟩
    · rcases hex with ⟨s, hs, hs60⟩
      rcases List.mem_cons.mp hs with rfl | hsrest
      · exact absurd hs60 h60
      · obtain ⟨r, hr⟩ := ih (fun q hq => hall q (List.mem_cons_of_mem _ hq)) ⟨s, hsrest, hs60⟩ true
        refine ⟨r, ?_⟩
        simpa [pollLoop, hterm, hstep, h60] using hr

/-- **C7.** The polling loop sleeps the fixed 2-second `DEFAULT_WAIT_INTERVAL`
before each status query and measures its 60-second budget from loop start:
on a trace in which every response lacks a `status` field and whose elapsed
clock eventually exceeds 60 seconds, `_wait_until_operation_finished` stops
and raises the malformed-response `AdformClientError` instead of polling
forever. -/
theorem poller_times_out_on_missing_status (steps : List PollStep)
    (hall : ∀ s ∈ steps, s.res.statusField = none)
    (hex : ∃ s ∈ steps, 60 < s.elapsed) :
    (∃ r, waitUntilOperationFinished steps = some (PollOutcome.malformed r)) ∧
    DEFAULT_WAIT_INTERVAL = 2 := by
  obtain ⟨r, hr⟩ := pollLoop_all_missing steps hall hex false
  exact ⟨⟨r, by simp [waitUntilOperationFinished, hr]⟩, rfl⟩

/-- Witness for C7: a single missing-status response observed 61 seconds in. -/
theorem poller_times_out_on_missing_status_witness :
    (∃ r, waitUntilOperationFinished [⟨⟨none⟩, 61⟩] = some (PollOutcome.malformed r)) ∧
    DEFAULT_WAIT_INTERVAL = 2 :=
  poller_times_out_on_missing_status [⟨⟨none⟩, 61⟩] (by decide) ⟨⟨⟨none⟩, 61⟩, by decide, by decide⟩

/-- **C1.** Evaluation at the failing input: one missing-status read at 3s
followed by a genuine `succeeded` status at 5s — well inside the 60-second
budget — still makes `_wait_until_operation_finished` raise the
malformed-response `AdformClientError`, because the `invalid_status` flag set
by the anomalous read is never cleared; the terminal status is not returned. -/
theorem anomaly_then_terminal_still_raises_malformed :
    waitUntilOperationFinished [⟨⟨none⟩, 3⟩, ⟨⟨some "succeeded"⟩, 5⟩] =
      some (PollOutcome.malformed ⟨some "succeeded"⟩) ∧
    waitUntilOperationFinished [⟨⟨none⟩, 3⟩, ⟨⟨some "succeeded"⟩, 5⟩] ≠
      some (PollOutcome.ok ⟨some "succeeded"⟩) := by
  constructor
  · decide
  · decide

/-! ### Pagination lemmas -/

/-- A page with rows is yielded and the loop continues at `offset + len(rows)`. -/
lemma paginateGo_cons_pos (k : ℕ) (p : ReportPage) (rest : List ReportPage)
    (h : 0 < p.rows.length) :
    paginateGo k (p :: rest) =
      ⟨k, pagingDict k, p⟩ :: paginateGo (k + p.rows.length) rest := by
  simp [paginateGo, h]

/-- A rowless page is yielded and ends the loop. -/
lemma paginateGo_cons_zero (k : ℕ) (p : ReportPage) (rest : List ReportPage)
    (h : p.rows.length = 0) :
    paginateGo k (p :: rest) = [⟨k, pagingDict k, p⟩] := by
  simp [paginateGo, h]

/-- On a trace of nonempty pages closed by one empty page, the loop yields
exactly those pages in order, and the submitted offsets are the running
prefix sums shifted by the starting offset. -/
lemma paginateGo_front (front : List ReportPage) (last : ReportPage)
    (hlast : last.rows = []) :
    ∀ k : ℕ, (∀ p ∈ front, p.rows ≠ []) →
    (paginateGo k (front ++ [last])).map (·.page) = front ++ [last] ∧
    (paginateGo k (front ++ [last])).map (·.submittedOffset) =
      (prefixSums ((front ++ [last]).map (·.rows.length))).map (· + k) := by
  induction front with
  | nil =>
    intro k _
    simp [paginateGo, hlast, prefixSums]
  | cons p ps ih =>
    intro k hfront
    have hp : 0 < p.rows.length :=
      List.length_pos.mpr (hfront p (List.mem_cons_self _ _))
    rw [List.cons_append, paginateGo_cons_pos _ _ _ hp]
    obtain ⟨h1, h2⟩ := ih (k + p.rows.length) (fun q hq => hfront q (List.mem_cons_of_mem _ hq))
    refine ⟨by simp [h1], ?_⟩
    simp only [List.map_cons, h2, prefixSums, List.map_map, Nat.zero_add]
    congr 1
    apply List.map_congr_left
    intro x _
    simp only [Function.comp_apply]
    omega

/-- Every step the pagination loop performs submits the paging dict built
from its own offset. -/
lemma paginateGo_paging (pages : List ReportPage) :
    ∀ (k : ℕ) (s : FetchStep), s ∈ paginateGo k pages →
      s.submittedPaging = pagingDict s.submittedOffset := by
  induction pages with
  | nil =>
    intro k s hs
    simp [paginateGo] at hs
  | cons p rest ih =>
    intro k s hs
    by_cases hp : 0 < p.rows.length
    · rw [paginateGo_cons_pos _ _ _ hp] at hs
      rcases List.mem_cons.mp hs with rfl | hs'
      · rfl
      · exact ih _ _ hs'
    · rw [paginateGo_cons_zero _ _ _ (by omega)] at hs
      rcases List.mem_cons.mp hs with rfl | hs'
      · rfl
      · exact absurd hs' (List.not_mem_nil s)

/-- **C2.** Against a mocked server answering with pages `front ++ [last]`
where every page of `front` has rows and `last` has none, the generator of
`get_report_data_paginated` emits the `front` pages — exactly `N - 1`
non-empty pages — in order; the offsets it submits are the running prefix
sums `0, s1, s1+s2, ...`; and the trailing zero-row page, the sole
termination signal, is not among those non-empty emitted pages. -/
theorem fetchAll_emits_pages_at_prefix_sum_offsets (front : List ReportPage) (last : ReportPage)
    (hfront : ∀ p ∈ front, p.rows ≠ []) (hlast : last.rows = []) :
    (((getReportDataPaginated (front ++ [last])).map (·.page)).filter
        (fun p => !p.rows.isEmpty) = front) ∧
    (((getReportDataPaginated (front ++ [last])).map (·.page)).filter
        (fun p => !p.rows.isEmpty)).length = front.length ∧
    ((getReportDataPaginated (front ++ [last])).map (·.submittedOffset) =
      prefixSums ((front ++ [last]).map (·.rows.length))) ∧
    last ∉ ((getReportDataPaginated (front ++ [last])).map (·.page)).filter
        (fun p => !p.rows.isEmpty) := by
  obtain ⟨h1, h2⟩ := paginateGo_front front last hlast 0 hfront
  have hfilter : ((getReportDataPaginated (front ++ [last])).map (·.page)).filter
      (fun p => !p.rows.isEmpty) = front := by
    simp only [getReportDataPaginated] at h1 ⊢
    rw [h1, List.filter_append]
    have hkeep : front.filter (fun p => !p.rows.isEmpty) = front :=
      List.filter_eq_self.mpr (fun p hp => by
        simp [List.isEmpty_iff, hfront p hp])
    have hdrop : [last].filter (fun p => !p.rows.isEmpty) = [] := by
      simp [List.filter, hlast]
    rw [hkeep, hdrop, List.append_nil]
  refine ⟨hfilter, by rw [hfilter], ?_, ?_⟩
  · simp only [getReportDataPaginated] at h2 ⊢
    rw [h2]
    simp
  · rw [hfilter]
    intro hmem
    exact hfront last hmem hlast

/-- Witness for C2: two pages of sizes 2 and 1 followed by the empty page. -/
theorem fetchAll_emits_pages_at_prefix_sum_offsets_witness :
    (((getReportDataPaginated ([⟨[["a"], ["b"]]⟩, ⟨[["c"]]⟩] ++ [⟨[]⟩])).map (·.page)).filter
        (fun p => !p.rows.isEmpty) = [⟨[["a"], ["b"]]⟩, ⟨[["c"]]⟩]) ∧
    (((getReportDataPaginated ([⟨[["a"], ["b"]]⟩, ⟨[["c"]]⟩] ++ [⟨[]⟩])).map (·.page)).filter
        (fun p => !p.rows.isEmpty)).length = 2 ∧
    ((getReportDataPaginated ([⟨[["a"], ["b"]]⟩, ⟨[["c"]]⟩] ++ [⟨[]⟩])).map (·.submittedOffset) =
      prefixSums ((([⟨[["a"], ["b"]]⟩, ⟨[["c"]]⟩] ++ [⟨[]⟩] : List ReportPage)).map
        (·.rows.length))) ∧
    ReportPage.mk [] ∉ ((getReportDataPaginated ([⟨[["a"], ["b"]]⟩, ⟨[["c"]]⟩] ++ [⟨[]⟩])).map
        (·.page)).filter (fun p => !p.rows.isEmpty) := by
  have h := fetchAll_emits_pages_at_prefix_sum_offsets [⟨[["a"], ["b"]]⟩, ⟨[["c"]]⟩] ⟨[]⟩
    (by decide) (by decide)
  exact ⟨h.1, by rw [h.1]; rfl, h.2.2.1, h.2.2.2⟩

/-- **C6.** Offset round-trip: a page with `r > 0` rows received at offset `k`
is yielded and the next submission uses offset `k + r`; a page with 0 rows at
any offset is the last thing yielded, terminating the sequence; and a short
page (`0 < r <` the 100,000 `DEFAULT_PAGING_LIMIT`) is never treated as
terminal — the loop still continues past it. -/
theorem offset_advancement_roundtrip (k : ℕ) (p : ReportPage) (rest : List ReportPage) :
    (0 < p.rows.length →
      paginateGo k (p :: rest) =
        ⟨k, pagingDict k, p⟩ :: paginateGo (k + p.rows.length) rest) ∧
    (p.rows.length = 0 → paginateGo k (p :: rest) = [⟨k, pagingDict k, p⟩]) ∧
    (0 < p.rows.length → p.rows.length < DEFAULT_PAGING_LIMIT →
      paginateGo k (p :: rest) =
        ⟨k, pagingDict k, p⟩ :: paginateGo (k + p.rows.length) rest) :=
  ⟨fun h => paginateGo_cons_pos k p rest h,
   fun h => paginateGo_cons_zero k p rest h,
   fun h _ => paginateGo_cons_pos k p rest h⟩

/-- Witness for C6: a 3-row page at offset 0 yields next offset 3, and the
following 0-row page terminates the sequence. -/
theorem offset_advancement_roundtrip_witness :
    paginateGo 0 [⟨[["a"], ["b"], ["c"]]⟩, ⟨[]⟩] =
      [⟨0, pagingDict 0, ⟨[["a"], ["b"], ["c"]]⟩⟩, ⟨3, pagingDict 3, ⟨[]⟩⟩] := by
  have h1 := (offset_advancement_roundtrip 0 ⟨[["a"], ["b"], ["c"]]⟩ [⟨[]⟩]).1 (by decide)
  rw [h1]
  decide

/-- **C8.** The submit body always carries exactly the `dimensions`, `filter`
and `metrics` given; its `paging` field is present if and only if a non-empty
paging argument was given (a `None`/empty paging is omitted, never sent
empty); and every submission of the paginated fetcher carries a paging dict
with the fixed 100,000 `DEFAULT_PAGING_LIMIT`. -/
theorem submit_body_paging_iff (d : List String) (f : List (String × String))
    (m : List (String × String)) :
    (∀ pg, (buildSubmitBody d f m pg).dimensions = d ∧
      (buildSubmitBody d f m pg).filter = f ∧ (buildSubmitBody d f m pg).metrics = m) ∧
    (∀ pg p, (buildSubmitBody d f m pg).paging = some p ↔ pg = some p ∧ p ≠ []) ∧
    (∀ (pages : List ReportPage) (s : FetchStep), s ∈ getReportDataPaginated pages →
      s.submittedPaging = [("offset", s.submittedOffset), ("limit", DEFAULT_PAGING_LIMIT)] ∧
      (buildSubmitBody d f m (some s.submittedPaging)).paging = some s.submittedPaging) := by
  refine ⟨fun pg => ⟨rfl, rfl, rfl⟩, ?_, ?_⟩
  · intro pg p
    match pg with
    | none => simp [buildSubmitBody]
    | some q =>
      by_cases hq : q.isEmpty
      · have : q = [] := List.isEmpty_iff.mp hq
        subst this
        simp [buildSubmitBody]
      · have hne : q ≠ [] := fun h => hq (by simp [h])
        simp [buildSubmitBody, hq]
        rintro rfl
        exact hne
  · intro pages s hs
    have hp := paginateGo_paging pages 0 s hs
    refine ⟨hp, ?_⟩
    rw [hp]
    simp [buildSubmitBody, pagingDict]

/-- Witness for C8: a concrete one-page run submits paging with limit 100000,
and a body built with no paging omits the field. -/
theorem submit_body_paging_iff_witness :
    ((buildSubmitBody ["date"] [("from", "2020-01-01")] [("metric", "impressions")]
        none).paging = some [] ↔ (none : Option (List (String × ℕ))) = some [] ∧
        ([] : List (String × ℕ)) ≠ []) ∧
    FetchStep.submittedPaging ⟨0, pagingDict 0, ⟨[]⟩⟩ =
      [("offset", 0), ("limit", DEFAULT_PAGING_LIMIT)] := by
  constructor
  · exact (submit_body_paging_iff ["date"] [("from", "2020-01-01")]
      [("metric", "impressions")]).2.1 none []
  · exact ((submit_body_paging_iff ["date"] [("from", "2020-01-01")]
      [("metric", "impressions")]).2.2 [⟨[]⟩] ⟨0, pagingDict 0, ⟨[]⟩⟩ (by decide)).1

/-! ### Transport and submit lemmas -/

/-- A response whose status is not forcelisted is returned immediately,
consuming no retries and none of the remaining trace. -/
lemma runTransport_ok_head (budget : ℕ) (r : HttpResponse) (rest : List HttpResponse)
    (h : r.status ∉ statusForcelist) :
    runTransport budget (r :: rest) = TransportResult.ok r := by
  cases budget <;> simp [runTransport, h]

/-- A forcelisted response consumes one retry and the transport moves on. -/
lemma runTransport_forcelist_cons (budget : ℕ) (r : HttpResponse) (rest : List HttpResponse)
    (h : r.status ∈ statusForcelist) :
    runTransport (budget + 1) (r :: rest) = runTransport budget rest := by
  simp [runTransport, h]

/-- Statuses at or below 299 are never forcelisted. -/
lemma status_le_299_not_forcelisted (n : ℕ) (h : n ≤ 299) : n ∉ statusForcelist := by
  simp only [statusForcelist, List.mem_cons, List.not_mem_nil, or_false]
  omega

/-- One more forcelisted response than the retry budget exhausts it. -/
lemma runTransport_exhaust : ∀ (n : ℕ) (rs : List HttpResponse), rs.length = n + 1 →
    (∀ r ∈ rs, r.status ∈ statusForcelist) → runTransport n rs = TransportResult.retryError := by
  intro n
  induction n with
  | zero =>
    intro rs hlen hall
    rcases rs with _ | ⟨r, rest⟩
    · simp at hlen
    · have hr := hall r (List.mem_cons_self _ _)
      simp [runTransport, hr]
  | succ n ih =>
    intro rs hlen hall
    rcases rs with _ | ⟨r, rest⟩
    · simp at hlen
    · rw [runTransport_forcelist_cons _ _ _ (hall r (List.mem_cons_self _ _))]
      refine ih rest ?_ (fun q hq => hall q (List.mem_cons_of_mem _ hq))
      simp at hlen
      omega

/-- **C3 counterexample.** A 200 submission response with no
`Operation-Location` header makes `_submit_stats_report` fail with an
unhandled Python `KeyError`, not with an `AdformClientError` or
`AdformServerError`. -/
theorem submit_missing_header_keyerror_cex :
    submitStatsReport "" [⟨200, "", []⟩] = SubmitOutcome.keyError "Operation-Location" := by
  decide

/-- **C3 (amended).** For every successful submission response whose headers
lack `Operation-Location`, or carry it but lack `Location`,
`_submit_stats_report` fails with an unhandled missing-key `KeyError` naming
the absent header — the bare `response.headers[...]` subscripts on lines
72–73 have no surrounding handler — rather than with a
`MalformedServerResponse`-classified `AdformClientError`/`AdformServerError`. -/
theorem submit_missing_header_raises_keyerror (e : String) (r : HttpResponse)
    (rest : List HttpResponse) (hst : r.status ≤ 299) :
    (lookupKey r.headers "Operation-Location" = none →
      submitStatsReport e (r :: rest) = SubmitOutcome.keyError "Operation-Location") ∧
    (∀ opHeader opId, lookupKey r.headers "Operation-Location" = some opHeader →
      afterLastSlash opHeader = some opId →
      lookupKey r.headers "Location" = none →
      submitStatsReport e (r :: rest) = SubmitOutcome.keyError "Location") := by
  have hnf : r.status ∉ statusForcelist := status_le_299_not_forcelisted r.status hst
  have htr := runTransport_ok_head MAX_RETRIES r rest hnf
  have hlt : ¬299 < r.status := by omega
  constructor
  · intro hol
    simp [submitStatsReport, htr, hlt, hol]
  · intro opHeader opId hol hsl hloc
    simp [submitStatsReport, htr, hlt, hol, hsl, hloc]

/-- Witness for C3 (amended): a 200 response carrying only
`Operation-Location`. -/
theorem submit_missing_header_raises_keyerror_witness :
    submitStatsReport "" [⟨200, "ok", [("Operation-Location", "ops/5")]⟩] =
      SubmitOutcome.keyError "Location" :=
  (submit_missing_header_raises_keyerror "" ⟨200, "ok", [("Operation-Location", "ops/5")]⟩ []
    (by decide)).2 "ops/5" "5" (by decide) (by decide) (by decide)

/-- **C4 counterexample.** A single 503 followed by a 200 does not succeed:
503 is absent from the configured forcelist `(429, 500, 502, 504)`, so the
transport hands the 503 response straight back and `_submit_stats_report`
raises the `ClientRequestRejected`-style `AdformClientError`. -/
theorem transport_503_not_retried_cex :
    submitStatsReport ""
        [⟨503, "unavailable", []⟩, ⟨200, "", [("Operation-Location", "ops/7"), ("Location", "res/9")]⟩] =
      SubmitOutcome.clientError (clientErrorMsg 503 "unavailable") := by
  decide

/-- **C4 (amended).** The transport retries forcelisted statuses
(429/500/502/504) with exponential backoff at base factor 0.3s up to the
ceiling of `MAX_RETRIES = 10`; on exhaustion the submit path fails with the
`ServerUnavailable`-style `AdformServerError` whose message explicitly names
the `#429` quota-limit possibility; a submit receiving a single forcelisted
status (e.g. 500) followed by a 200 succeeds without surfacing any error;
but 503 is not forcelisted — a single 503 is returned unretried and fails
immediately as a `ClientRequestRejected`-style `AdformClientError`. -/
theorem transport_retry_policy :
    (∀ (budget : ℕ) (r : HttpResponse) (rest : List HttpResponse),
        r.status ∈ statusForcelist →
        runTransport (budget + 1) (r :: rest) = runTransport budget rest) ∧
    (∀ (e : String) (rs : List HttpResponse), rs.length = MAX_RETRIES + 1 →
        (∀ r ∈ rs, r.status ∈ statusForcelist) →
        submitStatsReport e rs = SubmitOutcome.serverError (adformServerErrorMsg e)) ∧
    (∀ e : String, ∃ pre post, adformServerErrorMsg e = pre ++ "#429" ++ post) ∧
    (MAX_RETRIES = 10 ∧ backoffFactor = 3 / 10 ∧
      ∀ n : ℕ, backoffDelay (n + 1) = 2 * backoffDelay n) ∧
    (503 ∉ statusForcelist ∧
      ∀ (e : String) (r : HttpResponse) (rest : List HttpResponse), r.status = 503 →
        submitStatsReport e (r :: rest) =
          SubmitOutcome.clientError (clientErrorMsg 503 r.text)) ∧
    (∀ (e : String) (r1 r2 : HttpResponse) (opH locH opId locId : String),
        r1.status ∈ statusForcelist → r2.status = 200 →
        lookupKey r2.headers "Operation-Location" = some opH → afterLastSlash opH = some opId →
        lookupKey r2.headers "Location" = some locH → afterLastSlash locH = some locId →
        submitStatsReport e [r1, r2] = SubmitOutcome.ok opId locId) := by
  refine ⟨runTransport_forcelist_cons, ?_, ?_, ⟨rfl, rfl, ?_⟩, ⟨by decide, ?_⟩, ?_⟩
  · intro e rs hlen hall
    have htr := runTransport_exhaust MAX_RETRIES rs hlen hall
    simp [submitStatsReport, htr]
  · intro e
    refine ⟨"Client is unable to fetch data from server, please check your AdForm API quota limits in case of error ",
      " the maximum allowed number of requests has been reached, error: " ++ e, ?_⟩
    simp only [adformServerErrorMsg]
    rw [← String.append_assoc]
    congr 1
  · intro n
    simp only [backoffDelay]
    ring
  · intro e r rest h503
    have hnf : r.status ∉ statusForcelist := by rw [h503]; decide
    have htr := runTransport_ok_head MAX_RETRIES r rest hnf
    have hgt : 299 < r.status := by omega
    simp [submitStatsReport, htr, hgt, h503]
  · intro e r1 r2 opH locH opId locId h1 h2 hOL hsl hLoc hsl2
    have htr : runTransport MAX_RETRIES [r1, r2] = TransportResult.ok r2 := by
      rw [show MAX_RETRIES = 9 + 1 from rfl, runTransport_forcelist_cons _ _ _ h1]
      exact runTransport_ok_head _ _ _ (by rw [h2]; decide)
    have hlt : ¬299 < r2.status := by omega
    simp [submitStatsReport, htr, hlt, hOL, hsl, hLoc, hsl2]

/-- Witness for C4 (amended): eleven straight 429 responses exhaust the
ten-retry budget and surface the quota-naming `AdformServerError`. -/
theorem transport_retry_policy_witness :
    submitStatsReport "boom" (List.replicate 11 ⟨429, "", []⟩) =
      SubmitOutcome.serverError (adformServerErrorMsg "boom") :=
  transport_retry_policy.2.1 "boom" (List.replicate 11 ⟨429, "", []⟩) (by decide)
    (fun r hr => by rw [List.eq_of_mem_replicate hr]; decide)

/-- **C5.** A response with a non-retryable status ≥ 300 (not in the
forcelist) makes `_submit_stats_report` fail immediately with the
`ClientRequestRejected`-style `AdformClientError` carrying the status code
and response body; the transport returns that first response without
touching the rest of the trace — zero additional retry attempts. -/
theorem submit_nonretryable_rejected (e : String) (r : HttpResponse) (rest : List HttpResponse)
    (h3 : 300 ≤ r.status) (hnf : r.status ∉ statusForcelist) :
    submitStatsReport e (r :: rest) = SubmitOutcome.clientError (clientErrorMsg r.status r.text) ∧
    runTransport MAX_RETRIES (r :: rest) = TransportResult.ok r ∧
    clientErrorMsg r.status r.text =
      "Failed to submit report. Operation failed with code " ++ toString r.status ++
        ". Reason: " ++ r.text := by
  have htr := runTransport_ok_head MAX_RETRIES r rest hnf
  have hgt : 299 < r.status := by omega
  exact ⟨by simp [submitStatsReport, htr, hgt], htr, rfl⟩

/-- Witness for C5: a bare 400 rejection. -/
theorem submit_nonretryable_rejected_witness :
    submitStatsReport "" [⟨400, "Bad Request", []⟩] =
      SubmitOutcome.clientError (clientErrorMsg 400 "Bad Request") :=
  (submit_nonretryable_rejected "" ⟨400, "Bad Request", []⟩ [] (by decide) (by decide)).1

/-- **C9.** `Component.run` calls `client.get_report_data`, but neither
`AdformClient` nor its HTTP base class defines that attribute — only
`get_report_data_paginated` exists — so every execution reaching the fetch
loop raises an unhandled `AttributeError` (process exit path 2) with zero
reports submitted and zero pages stored. -/
theorem run_fetch_raises_attribute_error (loopRun : RunTrace) :
    componentRun loopRun = ⟨0, 0, some (PyExc.attributeError "get_report_data")⟩ ∧
    mainExitCode (componentRun loopRun) = 2 ∧
    "get_report_data" ∉ adformClientMethodNames ++ httpClientMethodNames ∧
    "get_report_data_paginated" ∈ adformClientMethodNames := by
  have hnm : "get_report_data" ∉ adformClientMethodNames ++ httpClientMethodNames := by decide
  have h1 : componentRun loopRun = ⟨0, 0, some (PyExc.attributeError "get_report_data")⟩ := by
    simp [componentRun, hnm, runExceptWrap]
  exact ⟨h1, by rw [h1]; rfl, hnm, by decide⟩

/-- **C10.** When the token endpoint's JSON body lacks `access_token`,
`login_using_client_credentials` raises nothing: `str(secrets.get(...))`
turns the missing value into the literal `None` and the stored credential
becomes exactly `Bearer None`. -/
theorem login_installs_bearer_none (secrets : List (String × String))
    (h : lookupKey secrets "access_token" = none) :
    loginAuthHeaderValue secrets = "Bearer None" := by
  unfold loginAuthHeaderValue
  rw [h]
  rfl

/-- Witness for C10: a token response with no `access_token` key. -/
theorem login_installs_bearer_none_witness :
    loginAuthHeaderValue [("token_type", "Bearer")] = "Bearer None" :=
  login_installs_bearer_none [("token_type", "Bearer")] (by decide)

end Adform
